import Mathlib

/-!
Shallow embedding of `src/scraper.py` from the medical-telegram-warehouse
repository, together with theorems settling the specification claims about
its scraping engine.

Python strings are modelled as lists of Unicode code points (`List Nat`).
`pyStr` converts a Lean string literal to that representation, so pattern
literals below are written exactly as in the Python source.
-/

/-- Code-point list of a string literal (model of a Python `str` value). -/
def pyStr (s : String) : List Nat :=
  s.data.map Char.toNat

/-- Model of Python `str.lower` on one code point.  Python maps the ASCII
letters `A`–`Z` (65–90) to `a`–`z`; every other character appearing in this
development (digits, punctuation, `$`, Ethiopic letters, `ı` U+0131) is
fixed by `str.lower`, so outside the ASCII uppercase range the map is the
identity. -/
def pyLowerChar (c : Nat) : Nat :=
  if 65 ≤ c ∧ c ≤ 90 then c + 32 else c

/-- Model of Python `str.upper` on one code point.  ASCII `a`–`z` (97–122)
map to `A`–`Z`; the Unicode simple case mapping sends U+0131 (`ı`, LATIN
SMALL LETTER DOTLESS I) to U+0049 (`I`), which Python's `str.upper` follows;
every other character appearing in this development is fixed. -/
def pyUpperChar (c : Nat) : Nat :=
  if 97 ≤ c ∧ c ≤ 122 then c - 32
  else if c = 0x131 then 73
  else c

/-- Python `text.lower()` (code-point-wise on this development's alphabet). -/
def pyLower (s : List Nat) : List Nat :=
  s.map pyLowerChar

/-- Python `text.upper()` (code-point-wise on this development's alphabet). -/
def pyUpper (s : List Nat) : List Nat :=
  s.map pyUpperChar

/-- Python `s.startswith(pattern)` on code-point lists: `startswith p s`
is true when `p` is an initial segment of `s`. -/
def startswith : List Nat → List Nat → Bool
  | [], _ => true
  | _ :: _, [] => false
  | a :: as, b :: bs => a = b && startswith as bs

/-- Python's substring test `pattern in text`: true when `pattern` occurs
contiguously inside `text` (the empty pattern occurs in every text). -/
def py_in (pattern : List Nat) : List Nat → Bool
  | [] => startswith pattern []
  | c :: cs => startswith pattern (c :: cs) || py_in pattern cs

/-- The literal list `price_patterns` of `TelegramScraper._contains_price`
(scraper.py line 186). -/
def price_patterns : List (List Nat) :=
  [pyStr "ETB", pyStr "birr", pyStr "USD", pyStr "$", pyStr "price", pyStr "ህ"]

/-- `TelegramScraper._contains_price` (scraper.py lines 184-187):
`any(pattern.lower() in text.lower() for pattern in price_patterns)`, where
Python's `in` on strings is substring containment. -/
def _contains_price (text : List Nat) : Bool :=
  price_patterns.any fun pattern => py_in (pyLower pattern) (pyLower text)

/-- The literal list `contact_patterns` of `TelegramScraper._contains_contact`
(scraper.py line 191). -/
def contact_patterns : List (List Nat) :=
  [pyStr "09", pyStr "+251", pyStr "@", pyStr "telegram", pyStr "call", pyStr "ጥያቄ"]

/-- `TelegramScraper._contains_contact` (scraper.py lines 189-192). -/
def _contains_contact (text : List Nat) : Bool :=
  contact_patterns.any fun pattern => py_in (pyLower pattern) (pyLower text)

/-- One entry of the retry loop body of `TelegramScraper.safe_get_messages`
(scraper.py lines 118-148): the messages the `async for` over
`iter_messages` yielded before the attempt either completed (`ok = true`,
reaching the `break`) or raised (`ok = false`, caught by an `except` arm
that increments `retry_count`). -/
structure Attempt (α : Type) where
  msgs : List α
  ok : Bool

/-- The `while retry_count < self.max_retries` loop of `safe_get_messages`:
`retriesLeft` is `max_retries - retry_count`, `idx` counts attempts (one
attempt per loop entry, since a successful attempt breaks), and `acc` is the
`messages` list, which the source initialises once outside the loop and
never clears between attempts. -/
def safe_get_messages_loop (attempts : Nat → Attempt α) :
    Nat → Nat → List α → List α
  | 0, _, acc => acc
  | n + 1, idx, acc =>
    let a := attempts idx
    let acc' := acc ++ a.msgs
    if a.ok then acc' else safe_get_messages_loop attempts n (idx + 1) acc'

/-- `TelegramScraper.safe_get_messages` (scraper.py lines 113-150) with
`self.max_retries = 3` (line 55).  The environment is abstracted as the
stream `attempts` of loop-body outcomes; the `limit` argument is enforced by
Telethon's `iter_messages`, i.e. it bounds each attempt's `msgs` (a
hypothesis on `attempts` in the theorems), not anything in this function's
own body. -/
def safe_get_messages (attempts : Nat → Attempt α) : List α :=
  safe_get_messages_loop attempts 3 0 []

/-- Outcome of the `await asyncio.wait_for(message.download_media(...))`
call in `download_image` (scraper.py lines 207-211), together with the state
of the target file afterwards: the download completed (leaving a file that
exists or not, with the given size in bytes), timed out, or raised. -/
inductive DownloadOutcome where
  | completed (file_exists : Bool) (size : Nat)
  | timeout
  | failed
deriving DecidableEq

/-- `TelegramScraper.download_image` (scraper.py lines 194-222).  `img_path`
abstracts the constructed `f"{message.id}_{hash}.jpg"` path.  Returning
`some` models the `return img_path` guarded by
`os.path.exists(img_path) and os.path.getsize(img_path) > 0`; `timeout`
(caught `asyncio.TimeoutError`) and `failed` (caught `Exception`) both fall
through to the final `return None`. -/
def download_image (outcome : DownloadOutcome) (img_path : List Nat) :
    Option (List Nat) :=
  match outcome with
  | .completed file_exists size =>
    if file_exists ∧ 0 < size then some img_path else none
  | .timeout => none
  | .failed => none

/-- The fields of a Telethon `Message` that `process_message` reads.
`date` holds the ISO string `message.date.isoformat()` would produce (or
`none`); `media` is `none` when `message.media` is `None`, and otherwise
records whether the media is a `MessageMediaPhoto`; `views`/`forwards` are
`none` when the attribute is missing or `None`. -/
inductive MediaKind where
  | photo
  | other
deriving DecidableEq

structure TLMessage where
  id : Nat
  date : Option (List Nat)
  text : Option (List Nat)
  media : Option MediaKind
  views : Option Nat
  forwards : Option Nat

/-- The dict built by `process_message` (scraper.py lines 156-169), one per
scraped message. -/
structure MsgRecord where
  message_id : Nat
  channel_name : List Nat
  message_date : Option (List Nat)
  message_text : List Nat
  has_media : Bool
  views : Nat
  forwards : Nat
  image_path : Option (List Nat)
  scraped_at : List Nat
  message_length : Nat
  contains_price : Bool
  contains_contact : Bool
deriving DecidableEq

/-- `TelegramScraper.process_message` (scraper.py lines 152-177).
`now` abstracts `datetime.now().isoformat()`, `outcome`/`img_path` feed the
`download_image` call made when the media is a `MessageMediaPhoto`.  The
`except` arm (line 179) only catches host-level exceptions not representable
here, so the happy path is total.  `message.text or ""` is `text.getD []`,
`bool(message.media)` is `media.isSome`, and
`getattr(message, "views", 0) or 0` is `views.getD 0`. -/
def process_message (message : TLMessage) (channel_name : List Nat)
    (now : List Nat) (outcome : DownloadOutcome) (img_path : List Nat) :
    MsgRecord :=
  let text := message.text.getD []
  { message_id := message.id
    channel_name := channel_name
    message_date := message.date
    message_text := text
    has_media := message.media.isSome
    views := message.views.getD 0
    forwards := message.forwards.getD 0
    image_path :=
      match message.media with
      | some .photo => download_image outcome img_path
      | _ => none
    scraped_at := now
    message_length := text.length
    contains_price := _contains_price text
    contains_contact := _contains_contact text }

/-- Python `s.replace(old, new)`: every non-overlapping occurrence of `old`
in `s` is replaced by `new`, scanning left to right.  The `fuel` argument
only makes the recursion structural; `fuel = s.length` suffices because each
step consumes at least one character of `s` (the source never calls
`replace` with an empty `old`). -/
def pyReplaceFuel (old new : List Nat) : Nat → List Nat → List Nat
  | 0, s => s
  | fuel + 1, s =>
    if old ≠ [] ∧ startswith old s = true then
      new ++ pyReplaceFuel old new fuel (s.drop old.length)
    else
      match s with
      | [] => []
      | c :: cs => c :: pyReplaceFuel old new fuel cs

/-- Python `s.replace(old, new)` (see `pyReplaceFuel`). -/
def pyReplace (s old new : List Nat) : List Nat :=
  pyReplaceFuel old new s.length s

/-- `self.raw_data_dir` (scraper.py line 59). -/
def raw_data_dir : List Nat := pyStr "data/raw/telegram_messages"

/-- `self.image_dir` (scraper.py line 60). -/
def image_dir : List Nat := pyStr "data/raw/images"

/-- `self.log_dir` (scraper.py line 61). -/
def log_dir : List Nat := pyStr "logs"

/-- The `summary` dict written by `save_messages` (scraper.py lines
257-268); `earliest`/`latest` are the two fields of its nested
`date_range`. -/
structure ChannelSummary where
  channel : List Nat
  total_messages : Nat
  date_scraped : List Nat
  earliest : Option (List Nat)
  latest : Option (List Nat)
  with_images : Nat
  total_views : Nat
  file_path : List Nat
deriving DecidableEq

/-- The observable file-system effect of one `save_messages` call: the data
file path written (if the format matched), the summary written, and its
path.  `none` throughout models the early `return` on an empty batch. -/
structure SaveResult where
  data_path : Option (List Nat)
  summary : Option ChannelSummary
  summary_path : Option (List Nat)
deriving DecidableEq

/-- `TelegramScraper.save_messages` (scraper.py lines 224-272).  `now`
abstracts `datetime.now()` (its `.isoformat()` is `now` itself and its
`strftime("%Y-%m-%d")` is `now.take 10`, as for any ISO timestamp).
Notes kept from the source: the empty-batch guard (line 226) returns after
only a log warning; `date_part` truncates the FIRST record's date;
`earliest` reads `messages[-1]` and `latest` reads `messages[0]`
positionally; `with_images` counts records whose `image_path` is truthy,
which for paths produced by `download_image` (never empty) is `isSome`. -/
def save_messages (messages : List MsgRecord) (channel_name : List Nat)
    (output_format : List Nat) (now : List Nat) : SaveResult :=
  match messages with
  | [] => { data_path := none, summary := none, summary_path := none }
  | m0 :: rest =>
    let msgs := m0 :: rest
    let date_part :=
      match m0.message_date with
      | some d => d.take 10
      | none => now.take 10
    let out_folder := raw_data_dir ++ pyStr "/" ++ date_part
    let safe_channel_name :=
      pyReplace (pyReplace channel_name (pyStr "@") (pyStr "")) (pyStr "/") (pyStr "_")
    let out_path := out_folder ++ pyStr "/" ++ safe_channel_name ++ pyStr ".json"
    let data_path :=
      if output_format = pyStr "json" then some out_path
      else if output_format = pyStr "csv" then
        some (pyReplace out_path (pyStr ".json") (pyStr ".csv"))
      else none
    { data_path := data_path
      summary := some
        { channel := channel_name
          total_messages := msgs.length
          date_scraped := now
          earliest := (rest.getLastD m0).message_date
          latest := m0.message_date
          with_images := (msgs.filter fun m => m.image_path.isSome).length
          total_views := (msgs.map MsgRecord.views).sum
          file_path := out_path }
      summary_path :=
        some (out_folder ++ pyStr "/" ++ safe_channel_name ++ pyStr "_summary.json") }

/-- State of the external configuration source read by `load_channels`
(scraper.py lines 33-41): the file at `CHANNELS_CONFIG_PATH` is absent, or
present with contents that `json.load` parses as a list of strings, or
present with contents on which `json.load` raises `json.JSONDecodeError`. -/
inductive ConfigState where
  | absent
  | json_list (channels : List (List Nat))
  | malformed
deriving DecidableEq

/-- `load_channels` (scraper.py lines 33-41): return the parsed file when it
exists, propagating `json.load`'s exception (`Except.error`) on malformed
contents, and fall back to the hardcoded list when the file is absent.  The
function only reads; it writes nothing. -/
def load_channels : ConfigState → Except Unit (List (List Nat))
  | .json_list channels => .ok channels
  | .malformed => .error ()
  | .absent => .ok [pyStr "lobelia4cosmetics", pyStr "tikvahpharma"]

/-- The report dict written by `generate_scrape_report` (scraper.py lines
350-366): the `scrape_session` aggregates and the fixed `data_location`
paths.  The float `delay` rate-limit setting is omitted (floating point);
`max_per_channel` is the retained settings field. -/
structure RunReport where
  date : List Nat
  total_channels : Nat
  total_messages : Nat
  channels_scraped : List (List Nat)
  max_per_channel : Nat
  raw_messages_location : List Nat
  images_location : List Nat
  logs_location : List Nat
deriving DecidableEq

/-- `TelegramScraper.generate_scrape_report` (scraper.py lines 348-372). -/
def generate_scrape_report (channels : List (List Nat))
    (max_per_channel : Nat) (now : List Nat) (total_messages : Nat) :
    RunReport :=
  { date := now
    total_channels := channels.length
    total_messages := total_messages
    channels_scraped := channels
    max_per_channel := max_per_channel
    raw_messages_location := raw_data_dir
    images_location := image_dir
    logs_location := log_dir }

/-- `TelegramScraper.scrape_all` (scraper.py lines 320-346).  `connected`
is the result of `await self.connect()`; when it is false the method
returns after a log line, generating no report.  `counts ch` abstracts
`await self.scrape_channel(ch)`, which catches every exception internally
and returns a count (0 for a failed channel), so the per-channel loop is
total and per-channel failures only show up as zero counts.  The final
report is returned as `some`. -/
def scrape_all (connected : Bool) (channels : List (List Nat))
    (counts : List Nat → Nat) (max_per_channel : Nat) (now : List Nat) :
    Option RunReport :=
  if connected then
    some (generate_scrape_report channels max_per_channel now
      (channels.foldl (fun total ch => total + counts ch) 0))
  else
    none

/-! ### Helper lemmas -/

/-- Lowercasing after uppercasing agrees with plain lowercasing on every
ASCII code point (the two case maps are inverse on the ASCII letters and
the identity on the rest of ASCII). -/
theorem pyLowerChar_pyUpperChar {c : Nat} (hc : c < 128) :
    pyLowerChar (pyUpperChar c) = pyLowerChar c := by
  unfold pyLowerChar pyUpperChar
  split_ifs <;> omega

/-- `text.upper().lower() = text.lower()` for ASCII-only texts. -/
theorem pyLower_pyUpper_of_ascii {t : List Nat} (ht : ∀ c ∈ t, c < 128) :
    pyLower (pyUpper t) = pyLower t := by
  induction t with
  | nil => rfl
  | cons c cs ih =>
    have hc : c < 128 := ht c (List.mem_cons_self c cs)
    have hcs : ∀ x ∈ cs, x < 128 := fun x hx => ht x (List.mem_cons_of_mem c hx)
    simp only [pyLower, pyUpper, List.map_cons] at ih ⊢
    exact congrArg₂ List.cons (pyLowerChar_pyUpperChar hc) (ih hcs)

/-! ### Claim theorems -/

/-- C2 (code evaluation): `_contains_price` as implemented matches the
pattern `price` as a bare substring, so it returns `true` both on
`"Price: 100 ETB"` and on `"No price info here"` — the latter contradicts
the repository's own test `test_contains_price`, which expects `False`
there. -/
theorem contains_price_eval_on_test_inputs :
    _contains_price (pyStr "Price: 100 ETB") = true ∧
    _contains_price (pyStr "No price info here") = true := by
  decide

/-- C3 (amended): `_contains_price` and `_contains_contact` are pure
functions of the text (they are functions of `text` alone by construction),
and for every text made of ASCII characters they are case-insensitive:
uppercasing the text does not change either result. -/
theorem contains_price_contact_case_insensitive_ascii (t : List Nat)
    (ht : ∀ c ∈ t, c < 128) :
    _contains_price (pyUpper t) = _contains_price t ∧
    _contains_contact (pyUpper t) = _contains_contact t := by
  unfold _contains_price _contains_contact
  rw [pyLower_pyUpper_of_ascii ht]
  exact ⟨rfl, rfl⟩

/-- Witness for C3 (amended) at the ASCII text `"Price: 100 ETB"`. -/
theorem contains_price_contact_case_insensitive_ascii_witness :
    _contains_price (pyUpper (pyStr "Price: 100 ETB")) =
      _contains_price (pyStr "Price: 100 ETB") ∧
    _contains_contact (pyUpper (pyStr "Price: 100 ETB")) =
      _contains_contact (pyStr "Price: 100 ETB") :=
  contains_price_contact_case_insensitive_ascii (pyStr "Price: 100 ETB")
    (by decide)

/-- Attempt stream for the C1 counterexample: every attempt yields exactly
one message (within `limit = 1`) and then raises. -/
def one_msg_then_fail : Nat → Attempt Nat :=
  fun _ => { msgs := [0], ok := false }

/-- C1 counterexample: with `limit = 1`, three attempts that each yield one
message (so each respects the limit) and then raise exhaust the retry
budget, and `safe_get_messages` returns `[0, 0, 0]` — three messages, more
than `limit`, because the accumulator is never cleared between retries. -/
theorem safe_get_messages_can_exceed_limit :
    (one_msg_then_fail 0).msgs.length ≤ 1 ∧
    (one_msg_then_fail 1).msgs.length ≤ 1 ∧
    (one_msg_then_fail 2).msgs.length ≤ 1 ∧
    (one_msg_then_fail 0).ok = false ∧
    (one_msg_then_fail 1).ok = false ∧
    (one_msg_then_fail 2).ok = false ∧
    safe_get_messages one_msg_then_fail = [0, 0, 0] ∧
    ¬ (safe_get_messages one_msg_then_fail).length ≤ 1 := by
  decide

/-- C1 (amended): when the retry budget `max_retries = 3` is exhausted
(all three attempts fail), `safe_get_messages` returns — never raises — the
concatenation of the messages accumulated by all failed attempts; since
`iter_messages` yields at most `limit` messages per attempt, the result has
at most `3 * limit` items (it can exceed `limit` itself, because the
accumulator is not reset between retries). -/
theorem safe_get_messages_retries_exhausted {α : Type} (limit : Nat)
    (attempts : Nat → Attempt α)
    (hfail : ∀ i, i < 3 → (attempts i).ok = false)
    (hlim : ∀ i, (attempts i).msgs.length ≤ limit) :
    safe_get_messages attempts =
      (attempts 0).msgs ++ (attempts 1).msgs ++ (attempts 2).msgs ∧
    (safe_get_messages attempts).length ≤ 3 * limit := by
  have h0 := hfail 0 (by omega)
  have h1 := hfail 1 (by omega)
  have h2 := hfail 2 (by omega)
  have heq : safe_get_messages attempts =
      (attempts 0).msgs ++ (attempts 1).msgs ++ (attempts 2).msgs := by
    simp [safe_get_messages, safe_get_messages_loop, h0, h1, h2]
  refine ⟨heq, ?_⟩
  rw [heq]
  have l0 := hlim 0
  have l1 := hlim 1
  have l2 := hlim 2
  simp only [List.length_append]
  omega

/-- Attempt stream for the C1 witness: attempt `i` yields the single
message `i` and fails. -/
def numbered_msg_then_fail : Nat → Attempt Nat :=
  fun i => { msgs := [i], ok := false }

/-- Witness for C1 (amended) at `limit = 2` and the concrete stream
`numbered_msg_then_fail`. -/
theorem safe_get_messages_retries_exhausted_witness :
    safe_get_messages numbered_msg_then_fail =
      (numbered_msg_then_fail 0).msgs ++ (numbered_msg_then_fail 1).msgs ++
        (numbered_msg_then_fail 2).msgs ∧
    (safe_get_messages numbered_msg_then_fail).length ≤ 3 * 2 :=
  safe_get_messages_retries_exhausted 2 numbered_msg_then_fail
    (fun _ _ => rfl) (fun _ => by simp [numbered_msg_then_fail])

/-- C3 counterexample: the text `"prıce"` (with U+0131, LATIN SMALL LETTER
DOTLESS I) has `contains_price = false`, but Python's `str.upper` maps `ı`
to `I`, so the uppercased text lowercases to `"price"` and
`contains_price(text.upper()) = true` — full case-insensitivity fails. -/
theorem contains_price_case_insensitivity_fails_on_dotless_i :
    _contains_price (pyStr "prıce") = false ∧
    _contains_price (pyUpper (pyStr "prıce")) = true := by
  decide

/-- Folding `total += counts ch` over a channel list sums the per-channel
counts. -/
theorem foldl_add_map_sum {α : Type} (f : α → Nat) (l : List α) :
    ∀ n : Nat, l.foldl (fun total x => total + f x) n = n + (l.map f).sum := by
  induction l with
  | nil => intro n; simp
  | cons a as ih =>
    intro n
    simp only [List.foldl_cons, List.map_cons, List.sum_cons, ih]
    omega

/-- C4 counterexample: when the initial connection attempt fails
(`connect()` returns false), `scrape_all` returns early and produces no
run report at all. -/
theorem scrape_all_no_report_on_failed_connection :
    scrape_all false [pyStr "lobelia4cosmetics", pyStr "tikvahpharma"]
      (fun _ => 0) 1000 (pyStr "2026-10-12T00:00:00") = none := by
  rfl

/-- C4 (amended): whenever the initial connection succeeds, `scrape_all`
always produces a final run report aggregating total channels, total
messages (per-channel failures contribute a zero count), the channel list,
the `max_per_channel` setting and the fixed output locations — regardless
of how many channels partially or fully failed. -/
theorem scrape_all_report_when_connected (channels : List (List Nat))
    (counts : List Nat → Nat) (max_per_channel : Nat) (now : List Nat) :
    ∃ r, scrape_all true channels counts max_per_channel now = some r ∧
      r.total_channels = channels.length ∧
      r.total_messages = (channels.map counts).sum ∧
      r.channels_scraped = channels ∧
      r.max_per_channel = max_per_channel ∧
      r.raw_messages_location = raw_data_dir ∧
      r.images_location = image_dir ∧
      r.logs_location = log_dir := by
  refine ⟨_, rfl, rfl, ?_, rfl, rfl, rfl, rfl, rfl⟩
  simpa using foldl_add_map_sum counts channels 0

/-- C5 counterexample: a present configuration file on which `json.load`
raises (malformed JSON) is a state of the external configuration source on
which `load_channels` fails by propagating the exception, so "never fails"
does not hold for every state. -/
theorem load_channels_raises_on_malformed_config :
    load_channels ConfigState.malformed = Except.error () := by
  rfl

/-- C5 (amended): `load_channels` performs no side effects (it is a pure
read), returns the configured list whenever the file is present and parses,
and degrades to the fixed fallback `["lobelia4cosmetics", "tikvahpharma"]`
when the file is absent; it can only fail on a present file whose contents
`json.load` rejects. -/
theorem load_channels_ok_cases :
    (∀ channels, load_channels (ConfigState.json_list channels) =
      Except.ok channels) ∧
    load_channels ConfigState.absent =
      Except.ok [pyStr "lobelia4cosmetics", pyStr "tikvahpharma"] :=
  ⟨fun _ => rfl, rfl⟩

/-- A `MessageMediaPhoto` message whose field values are otherwise empty;
used with a failed download outcome to exhibit `has_media = true` with
`image_path = none`. -/
def photo_msg : TLMessage :=
  { id := 1, date := none, text := none, media := some .photo,
    views := none, forwards := none }

/-- C6: every record produced by `process_message` satisfies the invariant
`image_path ≠ none → has_media = true` (the path is only ever set inside
the `if message.media and isinstance(..., MessageMediaPhoto)` branch), and
the converse indeed fails: a photo message whose download timed out yields
`has_media = true` with `image_path = none`. -/
theorem image_path_implies_has_media :
    (∀ (m : TLMessage) (ch now : List Nat) (o : DownloadOutcome)
        (p : List Nat),
      (process_message m ch now o p).image_path ≠ none →
      (process_message m ch now o p).has_media = true) ∧
    ((process_message photo_msg (pyStr "ch") (pyStr "t")
        DownloadOutcome.timeout (pyStr "p")).has_media = true ∧
     (process_message photo_msg (pyStr "ch") (pyStr "t")
        DownloadOutcome.timeout (pyStr "p")).image_path = none) := by
  refine ⟨?_, by decide, by decide⟩
  intro m ch now o p h
  cases hm : m.media with
  | none => simp [process_message, hm] at h
  | some k =>
    cases k with
    | photo => simp [process_message, hm]
    | other => simp [process_message, hm] at h

/-- Witness for C6 at a photo message whose download completed with a
non-empty file, so that `image_path` is actually set. -/
theorem image_path_implies_has_media_witness :
    (process_message photo_msg (pyStr "ch") (pyStr "t")
      (DownloadOutcome.completed true 1) (pyStr "p")).has_media = true :=
  image_path_implies_has_media.1 photo_msg (pyStr "ch") (pyStr "t")
    (DownloadOutcome.completed true 1) (pyStr "p") (by decide)

/-- C7: `download_image` returns a path exactly when the download completed
and the resulting file exists with size strictly greater than zero; a
zero-byte file, a timeout, or any download error yields no path (and no
propagated exception, the function being total). -/
theorem download_image_returns_path_iff :
    ∀ (o : DownloadOutcome) (p : List Nat),
      (download_image o p).isSome = true ↔
        ∃ n, o = DownloadOutcome.completed true n ∧ 0 < n := by
  intro o p
  cases o with
  | completed fe size =>
    cases fe with
    | false => simp [download_image]
    | true =>
      by_cases hs : 0 < size
      · simp [download_image, hs]
      · simp [download_image, hs]
  | timeout => simp [download_image]
  | failed => simp [download_image]

/-- A message with no text (`message.text` is `None`) and no media. -/
def no_text_msg : TLMessage :=
  { id := 2, date := none, text := none, media := none,
    views := none, forwards := none }

/-- C9: normalizing a message whose text is `None` succeeds (the model is
total) and yields `message_text = ""`, `message_length = 0`,
`contains_price = false`, `contains_contact = false`, via the
`message.text or ""` coalescing. -/
theorem process_message_none_text (m : TLMessage) (ch now : List Nat)
    (o : DownloadOutcome) (p : List Nat) (h : m.text = none) :
    (process_message m ch now o p).message_text = [] ∧
    (process_message m ch now o p).message_length = 0 ∧
    (process_message m ch now o p).contains_price = false ∧
    (process_message m ch now o p).contains_contact = false := by
  have hp : _contains_price [] = false := by decide
  have hc : _contains_contact [] = false := by decide
  simp [process_message, h, hp, hc]

/-- Witness for C9 at the concrete textless message `no_text_msg`. -/
theorem process_message_none_text_witness :
    (process_message no_text_msg (pyStr "ch") (pyStr "t")
        DownloadOutcome.failed (pyStr "p")).message_text = [] ∧
    (process_message no_text_msg (pyStr "ch") (pyStr "t")
        DownloadOutcome.failed (pyStr "p")).message_length = 0 ∧
    (process_message no_text_msg (pyStr "ch") (pyStr "t")
        DownloadOutcome.failed (pyStr "p")).contains_price = false ∧
    (process_message no_text_msg (pyStr "ch") (pyStr "t")
        DownloadOutcome.failed (pyStr "p")).contains_contact = false :=
  process_message_none_text no_text_msg (pyStr "ch") (pyStr "t")
    DownloadOutcome.failed (pyStr "p") rfl

/-- Lexicographic order on code-point lists: Python's `<=` on strings,
under which ISO-8601 timestamps of equal layout compare chronologically. -/
def listLe : List Nat → List Nat → Bool
  | [], _ => true
  | _ :: _, [] => false
  | a :: as, b :: bs => if a < b then true else if a = b then listLe as bs else false

theorem listLe_refl (l : List Nat) : listLe l l = true := by
  induction l with
  | nil => rfl
  | cons a as ih =>
    rw [listLe, if_neg (lt_irrefl a), if_pos rfl]
    exact ih

/-- In a pairwise-related list, every element either is the last element or
is related to it. -/
theorem pairwise_rel_getLastD {α : Type} {R : α → α → Prop} :
    ∀ (m0 : α) (rest : List α), (m0 :: rest).Pairwise R →
      ∀ m ∈ m0 :: rest, m = rest.getLastD m0 ∨ R m (rest.getLastD m0) := by
  intro m0 rest
  induction rest generalizing m0 with
  | nil =>
    intro _ m hm
    rw [List.mem_singleton] at hm
    exact Or.inl hm
  | cons b t ih =>
    intro hp m hm
    rw [List.pairwise_cons] at hp
    rw [List.getLastD_cons]
    rcases List.mem_cons.mp hm with rfl | hmem
    · exact Or.inr (hp.1 _ (List.getLastD_mem_cons t b))
    · exact ih b hp.2 m hmem

/-- A concrete processed record used by the C8 witness batch. -/
def sample_record : MsgRecord :=
  { message_id := 1
    channel_name := pyStr "tikvahpharma"
    message_date := some (pyStr "2026-10-12T10:00:00")
    message_text := []
    has_media := false
    views := 0
    forwards := 0
    image_path := none
    scraped_at := pyStr "2026-10-12T11:00:00"
    message_length := 0
    contains_price := false
    contains_contact := false }

/-- C8 counterexample: on the empty batch `save_messages` returns at the
guard `if not messages` after only a log warning, writing neither a data
file nor a manifest — so the manifest is not emitted for the empty batch. -/
theorem save_messages_empty_batch_no_manifest :
    save_messages [] (pyStr "tikvahpharma") (pyStr "json")
        (pyStr "2026-10-12T11:00:00") =
      { data_path := none, summary := none, summary_path := none } := by
  rfl

/-- C8 (amended): for every non-empty batch — in particular one produced by
a partial fetch — `save_messages` always writes a manifest (summary file)
alongside the data file; only the empty batch is skipped entirely. -/
theorem save_messages_nonempty_emits_manifest (messages : List MsgRecord)
    (channel_name output_format now : List Nat) (h : messages ≠ []) :
    (save_messages messages channel_name output_format now).summary.isSome =
      true ∧
    (save_messages messages channel_name output_format
        now).summary_path.isSome = true := by
  cases messages with
  | nil => exact absurd rfl h
  | cons m0 rest => exact ⟨rfl, rfl⟩

/-- Witness for C8 (amended) at a concrete one-record batch. -/
theorem save_messages_nonempty_emits_manifest_witness :
    (save_messages [sample_record] (pyStr "tikvahpharma") (pyStr "json")
        (pyStr "2026-10-12T11:00:00")).summary.isSome = true ∧
    (save_messages [sample_record] (pyStr "tikvahpharma") (pyStr "json")
        (pyStr "2026-10-12T11:00:00")).summary_path.isSome = true :=
  save_messages_nonempty_emits_manifest [sample_record]
    (pyStr "tikvahpharma") (pyStr "json") (pyStr "2026-10-12T11:00:00")
    (List.cons_ne_nil _ _)

/-- The date key a record contributes to the manifest comparisons, reading
a missing date as the empty string (only used where all dates are present
or where the record is concrete). -/
def dateOf (m : MsgRecord) : List Nat := m.message_date.getD []

/-- A record dated 2020, older than `new_record`. -/
def old_record : MsgRecord :=
  { sample_record with message_date := some (pyStr "2020-01-01T00:00:00") }

/-- A record dated 2021, newer than `old_record`. -/
def new_record : MsgRecord :=
  { sample_record with message_date := some (pyStr "2021-01-01T00:00:00") }

/-- A batch ordered oldest-first, i.e. NOT newest-first. -/
def unsorted_batch : List MsgRecord := [old_record, new_record]

/-- C10: the manifest's `date_range` is positional — `latest` is the
`message_date` of the FIRST record of the batch and `earliest` that of the
LAST record (part 1); when the batch is ordered newest-first these
positional picks are the true maximum and minimum of the batch's dates
(part 2: the first record's date bounds every date from above and the last
record's date from below); and they are not the true extrema in general
(part 3: on the oldest-first `unsorted_batch` the reported `latest` is the
2020 date even though the batch contains a 2021 date). -/
theorem save_messages_date_range_positional :
    (∀ (m0 : MsgRecord) (rest : List MsgRecord) (ch fmt now : List Nat),
      ∃ s, (save_messages (m0 :: rest) ch fmt now).summary = some s ∧
        s.latest = m0.message_date ∧
        s.earliest = (rest.getLastD m0).message_date) ∧
    (∀ (m0 : MsgRecord) (rest : List MsgRecord),
      (m0 :: rest).Pairwise (fun a b => listLe (dateOf b) (dateOf a) = true) →
      ∀ m ∈ m0 :: rest,
        listLe (dateOf m) (dateOf m0) = true ∧
        listLe (dateOf (rest.getLastD m0)) (dateOf m) = true) ∧
    (∃ s, (save_messages unsorted_batch (pyStr "ch") (pyStr "json")
        (pyStr "2026-10-12T11:00:00")).summary = some s ∧
      s.latest = some (pyStr "2020-01-01T00:00:00") ∧
      new_record ∈ unsorted_batch ∧
      listLe (dateOf new_record) (pyStr "2020-01-01T00:00:00") = false) := by
  refine ⟨?_, ?_, ?_⟩
  · intro m0 rest ch fmt now
    exact ⟨_, rfl, rfl, rfl⟩
  · intro m0 rest hp m hm
    constructor
    · rcases List.mem_cons.mp hm with rfl | hmem
      · exact listLe_refl _
      · exact (List.pairwise_cons.mp hp).1 m hmem
    · rcases pairwise_rel_getLastD m0 rest hp m hm with heq | hrel
      · rw [heq]; exact listLe_refl _
      · exact hrel
  · exact ⟨_, rfl, rfl, by decide, by decide⟩

/-- Witness for C10 at the newest-first batch `[new_record, old_record]`:
the first record's 2021 date bounds the old record's 2020 date from above
and the batch's last date bounds it from below. -/
theorem save_messages_date_range_positional_witness :
    listLe (dateOf old_record) (dateOf new_record) = true ∧
    listLe (dateOf ([old_record].getLastD new_record)) (dateOf old_record) =
      true :=
  save_messages_date_range_positional.2.1 new_record [old_record]
    (by decide) old_record (by decide)
